import Mathlib

/-!
Verification development for the EchoTrace repository.

We shallowly embed the Python modules `hub/accessibility_store.py`,
`hub/narrative_state.py` and `pi_nodes/audio_player.py`.

Python runtime values that flow through the accessibility store are untyped
(YAML / JSON scalars, lists and mappings); we embed them as the inductive
type `Val`.  Python `float`s are embedded as exact rationals `ℚ` (the
constants the code manipulates — 0.7, 0.55, 0.45, 0.85, 0.9, 1.0, 1.15 —
and comparisons / min / max on them behave identically), Python `int` as
`Int`, dictionaries as association lists preserving insertion order (the
observable behaviour of Python 3.7+ dicts), and raising code as `Except`.
-/

namespace EchoTrace

/-- An untyped Python value as it appears in the accessibility profile
document: `None`, booleans, ints, floats (as exact rationals), strings,
lists and string-keyed dicts (association lists in insertion order). -/
inductive Val where
  | none  : Val
  | bool  : Bool → Val
  | int   : Int → Val
  | float : ℚ → Val
  | str   : String → Val
  | list  : List Val → Val
  | dict  : List (String × Val) → Val

/-- Dictionary lookup `d[k]` in a Python dict embedded as an association list:
the first binding of the key wins (bindings are unique in practice). -/
def lookupD : List (String × Val) → String → Option Val
  | [], _ => Option.none
  | (k, v) :: rest, key => if k = key then some v else lookupD rest key

/-- Assignment `d[k] = v`: replace the existing binding in place, else append
(Python dicts keep the original position of an updated key and append
new keys at the end). -/
def setD : List (String × Val) → String → Val → List (String × Val)
  | [], key, v => [(key, v)]
  | (k, w) :: rest, key, v =>
      if k = key then (k, v) :: rest else (k, w) :: setD rest key v

/-- Python `d.pop(k, None)`: drop the binding of the key, if any. -/
def popD : List (String × Val) → String → List (String × Val)
  | [], _ => []
  | (k, w) :: rest, key => if k = key then rest else (k, w) :: popD rest key

/-- Python `d.setdefault(k, v)`: insert `v` at the end when the key is absent. -/
def setdefaultD (d : List (String × Val)) (key : String) (v : Val) :
    List (String × Val) :=
  if (lookupD d key).isSome then d else d ++ [(key, v)]

/-- Python `d.update(upd)`: fold the updates into `d` in their iteration order. -/
def updateD (d upd : List (String × Val)) : List (String × Val) :=
  upd.foldl (fun acc kv => setD acc kv.1 kv.2) d

/-- Python truthiness (`bool(v)` / `if v:`). -/
def pyBool : Val → Bool
  | Val.none => false
  | Val.bool b => b
  | Val.int n => n ≠ 0
  | Val.float q => q ≠ 0
  | Val.str s => s ≠ ""
  | Val.list xs => !xs.isEmpty
  | Val.dict d => !d.isEmpty

/-- Python `a or b` on untyped values. -/
def pyOr (a b : Val) : Val := if pyBool a then a else b

/-- Decimal rendering of a Python float embedded as a rational.  Python's
shortest-roundtrip float repr is not reproducible exactly over `ℚ`; this
rendering agrees on integral values and, like the real repr, never
contains a `:`, so such a string can never parse as a quiet-hours window
(the only context in which non-string values are stringified). -/
def floatRepr (q : ℚ) : String :=
  if q.den = 1 then toString q.num ++ ".0"
  else toString q.num ++ "/" ++ toString q.den

mutual

/-- Python `repr(v)` (the element rendering used inside containers). -/
def pyRepr : Val → String
  | Val.none => "None"
  | Val.bool true => "True"
  | Val.bool false => "False"
  | Val.int n => toString n
  | Val.float q => floatRepr q
  | Val.str s => "\x27" ++ s ++ "\x27"
  | Val.list xs => "[" ++ String.intercalate ", " (pyReprList xs) ++ "]"
  | Val.dict kvs => "\x7b" ++ String.intercalate ", " (pyReprDict kvs) ++ "\x7d"

/-- Rendering (`repr`) of each element of a list. -/
def pyReprList : List Val → List String
  | [] => []
  | v :: rest => pyRepr v :: pyReprList rest

/-- Rendering (`repr`) of each `key: value` pair of a dict. -/
def pyReprDict : List (String × Val) → List String
  | [] => []
  | (k, v) :: rest => ("\x27" ++ k ++ "\x27: " ++ pyRepr v) :: pyReprDict rest

end

/-- Python `str(v)`: identity on strings, `repr`-style otherwise. -/
def pyStr : Val → String
  | Val.str s => s
  | v => pyRepr v

/-- The whitespace class of Python `str.strip()` (the common ASCII
whitespace characters). -/
def isPyWhitespace (c : Char) : Bool :=
  c = ' ' ∨ c = '\t' ∨ c = '\n' ∨ c = '\r' ∨ c = '\x0b' ∨ c = '\x0c'

/-- Python `s.strip()`: drop leading and trailing whitespace. -/
def pyStrip (s : String) : String :=
  String.mk (((s.data.dropWhile isPyWhitespace).reverse.dropWhile isPyWhitespace).reverse)

/-- Python `s.lower()` restricted to ASCII letters (the only characters
appearing in the paths and keys the code handles). -/
def pyLower (s : String) : String :=
  String.mk (s.data.map fun c =>
    if 'A' ≤ c ∧ c ≤ 'Z' then Char.ofNat (c.toNat + 32) else c)

/-- Numeric value of a nonempty all-digit character run. -/
def parseDigits (cs : List Char) : Option Nat :=
  if cs.isEmpty then Option.none
  else if cs.all Char.isDigit then
    some (cs.foldl (fun a c => a * 10 + (c.toNat - 48)) 0)
  else Option.none

/-- Python `int(s)` on a string: surrounding whitespace, an optional
sign, then decimal digits.  (Digit-group underscores and non-ASCII
digits, which Python also accepts, are not modelled.) -/
def parseIntStr (s : String) : Option Int :=
  match (pyStrip s).data with
  | [] => Option.none
  | c :: rest =>
      if c = '-' then (parseDigits rest).map (fun n => -(n : Int))
      else if c = '+' then (parseDigits rest).map (fun n => (n : Int))
      else (parseDigits (c :: rest)).map (fun n => (n : Int))

/-- Python `float(s)` on a string: optional sign, decimal digits with an
optional fractional part, optional exponent.  (`inf`/`nan` literals and
digit-group underscores are not representable / not modelled.) -/
def parseFloatStr (s : String) : Option ℚ :=
  let t := (pyStrip s).data
  let sign : ℚ × List Char :=
    match t with
    | '-' :: r => (-1, r)
    | '+' :: r => (1, r)
    | r => (1, r)
  let ip := sign.2.takeWhile Char.isDigit
  let r1 := sign.2.dropWhile Char.isDigit
  let fp : List Char × List Char :=
    match r1 with
    | '.' :: r => (r.takeWhile Char.isDigit, r.dropWhile Char.isDigit)
    | r => ([], r)
  if ip.isEmpty ∧ fp.1.isEmpty then Option.none
  else
    let mantissa : ℚ :=
      (((ip ++ fp.1).foldl (fun a c => a * 10 + (c.toNat - 48)) 0 : Nat) : ℚ) /
        (10 : ℚ) ^ fp.1.length
    match fp.2 with
    | [] => some (sign.1 * mantissa)
    | e :: r3 =>
        if e = 'e' ∨ e = 'E' then
          let esign : Int × List Char :=
            match r3 with
            | '-' :: r => (-1, r)
            | '+' :: r => (1, r)
            | r => (1, r)
          match parseDigits esign.2 with
          | some ex => some (sign.1 * mantissa * (10 : ℚ) ^ (esign.1 * ex))
          | Option.none => Option.none
        else Option.none

/-- Truncation toward zero, the behaviour of Python `int()` on a float. -/
def pyIntOfRat (q : ℚ) : Int := if 0 ≤ q then ⌊q⌋ else ⌈q⌉

/-- Python `int(v)` on an arbitrary value: `Option.none` marks the
`TypeError` / `ValueError` cases that `_clamp_int` catches. -/
def pyToInt : Val → Option Int
  | Val.none => Option.none
  | Val.bool b => some (if b then 1 else 0)
  | Val.int n => some n
  | Val.float q => some (pyIntOfRat q)
  | Val.str s => parseIntStr s
  | Val.list _ => Option.none
  | Val.dict _ => Option.none

/-- Python `float(v)` on an arbitrary value: `Option.none` marks the
`TypeError` / `ValueError` cases that `_clamp_float` catches. -/
def pyToFloat : Val → Option ℚ
  | Val.none => Option.none
  | Val.bool b => some (if b then 1 else 0)
  | Val.int n => some (n : ℚ)
  | Val.float q => some q
  | Val.str s => parseFloatStr s
  | Val.list _ => Option.none
  | Val.dict _ => Option.none

/-- Embedding of `_clamp_int(value, minimum, maximum)`: coerce with `int()`, fall back
to `minimum` when coercion raises, then clamp. -/
def clampInt (value : Val) (minimum maximum : Int) : Int :=
  let number := (pyToInt value).getD minimum
  max minimum (min maximum number)

/-- Embedding of `_clamp_float(value, minimum, maximum)`: coerce with `float()`, fall
back to `minimum` when coercion raises, then clamp. -/
def clampFloat (value : Val) (minimum maximum : ℚ) : ℚ :=
  let number := (pyToFloat value).getD minimum
  max minimum (min maximum number)

/-- Split a string at the first occurrence of a character
(Python `s.split(sep, 1)` when the separator occurs;
`Option.none` when the separator is absent, i.e. a 1-element split). -/
def splitOnce (s : String) (sep : Char) : Option (String × String) :=
  let rec go : List Char → List Char → Option (String × String)
    | _, [] => Option.none
    | acc, c :: rest =>
        if c = sep then some (String.mk acc.reverse, String.mk rest)
        else go (c :: acc) rest
  go [] s.data

/-- Embedding of `_parse_time(value)`: split on the first `:`, `int()` both halves
(any failure, including a missing `:` — an unpacking `ValueError` — gives
`Option.none`), check `0 ≤ hour < 24` and `0 ≤ minute < 60`.  A
`datetime.time` at whole minutes is represented by its minutes count. -/
def parseTime (value : String) : Option Nat :=
  match splitOnce value ':' with
  | Option.none => Option.none
  | some (hours, minutes) =>
      match parseIntStr hours, parseIntStr minutes with
      | some hour_i, some minute_i =>
          if 0 ≤ hour_i ∧ hour_i < 24 ∧ 0 ≤ minute_i ∧ minute_i < 60 then
            some (hour_i.toNat * 60 + minute_i.toNat)
          else Option.none
      | _, _ => Option.none

/-- Errors raised by quiet-hours validation: the two type errors from
`_coerce_quiet_hour_entries`, and the aggregated invalid-entry report
from `ensure_quiet_hours_valid`. -/
inductive QhError where
  | typeErr (msg : String)
  | invalidEntries (entries : List String)
deriving Repr, DecidableEq

/-- Embedding of `_coerce_quiet_hour_entries(value)`: `None` means no entries, a
mapping or a scalar is a type error, a string stands for itself, a list
is stringified elementwise; entries are stripped and empties dropped. -/
def coerceQuietHourEntries : Val → Except QhError (List String)
  | Val.none => .ok []
  | Val.dict _ => .error (.typeErr "quiet_hours must be a list of HH:MM-HH:MM strings.")
  | Val.str s => .ok ([s].filter (fun e => e ≠ "" ∧ pyStrip e ≠ "") |>.map pyStrip)
  | Val.list xs =>
      .ok ((xs.map pyStr).filter (fun e => e ≠ "" ∧ pyStrip e ≠ "") |>.map pyStrip)
  | _ => .error (.typeErr "quiet_hours must be provided as a string or list.")

/-- Embedding of `_normalise_quiet_hours(value)`: a coercion error yields no windows;
each entry is split at the first `-`, both halves stripped and parsed,
unparsable entries skipped. -/
def normaliseQuietHours (value : Val) : List (Nat × Nat) :=
  match coerceQuietHourEntries value with
  | .error _ => []
  | .ok entries =>
      entries.filterMap fun entry =>
        match splitOnce entry '-' with
        | Option.none => Option.none
        | some (a, b) =>
            match parseTime (pyStrip a), parseTime (pyStrip b) with
            | some s, some e => some (s, e)
            | _, _ => Option.none

/-- Embedding of `_quiet_hours_active(config_value, now)`: false with no parsed
windows, otherwise true iff some window contains `now`, with wraparound
for windows whose start is after their end. -/
def quietHoursActive (config_value : Val) (now : Nat) : Bool :=
  let windows := normaliseQuietHours config_value
  if windows.isEmpty then false
  else windows.any fun w =>
    if w.1 ≤ w.2 then decide (w.1 ≤ now ∧ now < w.2)
    else decide (now ≥ w.1 ∨ now < w.2)

/-- The per-entry check of `ensure_quiet_hours_valid`'s loop: an entry is
invalid when it does not split into two `-`-separated halves or either
half fails `_parse_time`. -/
def invalidWindowEntry (entry : String) : Bool :=
  match splitOnce entry '-' with
  | Option.none => true
  | some (a, b) => (parseTime (pyStrip a)).isNone || (parseTime (pyStrip b)).isNone

/-- Embedding of `ensure_quiet_hours_valid(value)`: coerce the entries (propagating
the type errors by the match, as the uncaught exception propagates), then
collect every entry that fails to parse as a window and report the whole
list at once. -/
def ensureQuietHoursValid (value : Val) : Except QhError Unit :=
  match coerceQuietHourEntries value with
  | .error e => .error e
  | .ok entries =>
      if entries.isEmpty then .ok ()
      else
        let invalid := entries.filter invalidWindowEntry
        if invalid.isEmpty then .ok () else .error (.invalidEntries invalid)

/-- Errors raised by the profile-store mutation operations. -/
inductive StoreError where
  | keyNotFound (name : String)
  | valueErr (msg : String)
  | typeErr (msg : String)
deriving Repr, DecidableEq

/-- Errors raised by `load_profiles` after the YAML parse. -/
inductive LoadError where
  | notMapping (msg : String)
  | attributeErr
  | quietHours (e : QhError)
deriving Repr, DecidableEq

/-- The default document returned by `load_profiles` when no persisted
file exists. -/
def defaultProfiles : List (String × Val) :=
  [("global", Val.dict []), ("presets", Val.dict []), ("per_node_overrides", Val.dict [])]

/-- Embedding of `load_profiles` on a persisted document, after the YAML parse
(`raw` is `yaml.safe_load`'s result): a falsy parse becomes `{}`,
a non-dict top level is a `ValueError`, the three top-level sections are
defaulted to empty mappings, a non-dict `global` makes
`data["global"].get(...)` raise `AttributeError`, and the global
`quiet_hours` value is validated before the document is returned. -/
def loadProfilesData (raw : Val) : Except LoadError (List (String × Val)) :=
  match pyOr raw (Val.dict []) with
  | Val.dict d0 =>
      let d := setdefaultD (setdefaultD (setdefaultD d0 "global" (Val.dict []))
        "presets" (Val.dict [])) "per_node_overrides" (Val.dict [])
      match (lookupD d "global").getD (Val.dict []) with
      | Val.dict g =>
          match ensureQuietHoursValid ((lookupD g "quiet_hours").getD Val.none) with
          | .ok _ => .ok d
          | .error e => .error (.quietHours e)
      | _ => .error .attributeErr
  | _ => .error (.notMapping "Accessibility profiles file must contain a mapping.")

/-- Is the character-list `needle` an infix of `hay`?  (Python `in` on
strings.) -/
def charsPrefixOf : List Char → List Char → Bool
  | [], _ => true
  | _ :: _, [] => false
  | a :: as, b :: bs => a = b && charsPrefixOf as bs

/-- Infix test on character lists. -/
def charsInfixOf (needle hay : List Char) : Bool :=
  match hay with
  | [] => needle.isEmpty
  | _ :: t => charsPrefixOf needle hay || charsInfixOf needle t

/-- Python `name in container` for the container shapes `apply_preset` can meet:
dict key membership, list element equality (a string equals only an equal
string), substring test on strings; `Option.none` marks the `TypeError`
of unsupported containers. -/
def pyContainsName (container : Val) (name : String) : Option Bool :=
  match container with
  | Val.dict d => some (d.any fun kv => kv.1 = name)
  | Val.list xs =>
      some (xs.any fun v => match v with | Val.str t => t = name | _ => false)
  | Val.str s => some (charsInfixOf name.data s.data)
  | _ => Option.none

/-- Embedding of `apply_preset(profiles, preset_name)`: unknown presets are a
`KeyError`; the preset's fields are merged into the global mapping,
overwriting same-named fields; non-mapping `global` or preset values are
`ValueError`s.  A non-dict presets container either fails the membership
test with a `KeyError` or raises a `TypeError` on indexing. -/
def applyPreset (profiles : List (String × Val)) (preset_name : String) :
    Except StoreError (List (String × Val)) :=
  let presets := (lookupD profiles "presets").getD (Val.dict [])
  match pyContainsName presets preset_name with
  | Option.none => .error (.typeErr "argument of type is not iterable")
  | some false => .error (.keyNotFound preset_name)
  | some true =>
      match presets with
      | Val.dict pd =>
          let profiles1 := setdefaultD profiles "global" (Val.dict [])
          let global_settings := (lookupD profiles1 "global").getD (Val.dict [])
          let preset_values := pyOr ((lookupD pd preset_name).getD Val.none) (Val.dict [])
          match global_settings, preset_values with
          | Val.dict gd, Val.dict pv =>
              .ok (setD profiles1 "global" (Val.dict (updateD gd pv)))
          | Val.dict _, _ => .error (.valueErr "Preset values must be a mapping.")
          | _, _ => .error (.valueErr "Global accessibility settings must be a mapping.")
      | _ => .error (.typeErr "indices must be integers")

/-- Does the overrides filter of `set_per_node_override` drop this value
(`value in (None, "")`)? -/
def isEmptyOverrideVal : Val → Bool
  | Val.none => true
  | Val.str s => s = ""
  | _ => false

/-- Embedding of `set_per_node_override(profiles, node_id, overrides)`: a non-mapping
`per_node_overrides` section is a `ValueError`; `None`/`""` fields are
dropped, a nonempty normalised set replaces the node's entry wholesale,
an empty one removes the entry. -/
def setPerNodeOverride (profiles : List (String × Val)) (node_id : String)
    (overrides : List (String × Val)) : Except StoreError (List (String × Val)) :=
  let profiles1 := setdefaultD profiles "per_node_overrides" (Val.dict [])
  match (lookupD profiles1 "per_node_overrides").getD (Val.dict []) with
  | Val.dict per =>
      let normalised := overrides.filter fun kv => !isEmptyOverrideVal kv.2
      let per2 :=
        if normalised.isEmpty then popD per node_id
        else setD per node_id (Val.dict normalised)
      .ok (setD profiles1 "per_node_overrides" (Val.dict per2))
  | _ => .error (.valueErr "per_node_overrides must be a mapping.")

/-- Reading back the stored override entry of one node from a document:
the binding of `node_id` inside the `per_node_overrides` section, if
any. -/
def storedOverride (profiles : List (String × Val)) (node_id : String) : Option Val :=
  match lookupD profiles "per_node_overrides" with
  | some (Val.dict per) => lookupD per node_id
  | _ => Option.none

/-- Embedding of `_ensure_mapping(candidate)`: a mapping passes through, anything else
becomes the empty mapping. -/
def ensureMappingV : Val → List (String × Val)
  | Val.dict d => d
  | _ => []

/-- The runtime payload `_build_node_payload` produces: the `audio.volume`
field and the seven `accessibility` fields. -/
structure RuntimePayload where
  volume : ℚ
  captions : Bool
  visual_pulse : Bool
  proximity_glow : Bool
  mobility_buffer_ms : Int
  repeatCount : Int
  pace : ℚ
  safety_limiter : Bool
deriving Repr, DecidableEq

/-- Embedding of `_build_node_payload(global_settings, node_override, quiet_mode)`. -/
def buildNodePayload (global_settings node_override : List (String × Val))
    (quiet_mode : Bool) : RuntimePayload :=
  let captions := pyBool ((lookupD node_override "captions").getD
    ((lookupD global_settings "captions").getD (Val.bool false)))
  let visual_pulse0 := pyBool ((lookupD node_override "visual_pulse").getD (Val.bool false))
  let proximity_glow0 := pyBool ((lookupD node_override "proximity_glow").getD (Val.bool true))
  let default_buffer := clampInt
    ((lookupD global_settings "mobility_buffer_ms").getD (Val.int 800)) 0 60000
  let mobility_buffer_ms := clampInt
    ((lookupD node_override "mobility_buffer_ms").getD (Val.int default_buffer)) 0 60000
  let rp := clampInt ((lookupD node_override "repeat").getD (Val.int 0)) 0 2
  let sensory := pyBool ((lookupD global_settings "sensory_friendly").getD Val.none)
  let base_pace : ℚ := if sensory then 0.9 else 1.0
  let pace := clampFloat ((lookupD node_override "pace").getD (Val.float base_pace)) 0.85 1.15
  let safety_limiter := pyBool ((lookupD node_override "safety_limiter").getD
    ((lookupD global_settings "safety_limiter").getD (Val.bool true)))
  let volume_raw : Val :=
    match (lookupD node_override "volume").getD Val.none with
    | Val.none =>
        let v0 : ℚ := 0.7
        let v1 : ℚ := if sensory then min v0 0.55 else v0
        let v2 : ℚ := if quiet_mode then min v1 0.45 else v1
        Val.float v2
    | v => v
  let volume := clampFloat volume_raw 0.0 1.0
  let visual_pulse :=
    if quiet_mode && !(lookupD node_override "visual_pulse").isSome then false
    else visual_pulse0
  let proximity_glow :=
    if quiet_mode && !(lookupD node_override "proximity_glow").isSome then false
    else proximity_glow0
  { volume := volume
    captions := captions
    visual_pulse := visual_pulse
    proximity_glow := proximity_glow
    mobility_buffer_ms := max 0 mobility_buffer_ms
    repeatCount := rp
    pace := pace
    safety_limiter := safety_limiter }

/-- Embedding of `derive_runtime_payloads(profiles, nodes, now=now)`: one payload per
requested node id, sharing one quiet-hours verdict; ill-typed sections
are treated as empty mappings.  `nodes` is the key list of the nodes
mapping, `now` the evaluation time in minutes since midnight. -/
def deriveRuntimePayloads (profiles : List (String × Val)) (nodes : List String)
    (now : Nat) : List (String × RuntimePayload) :=
  let global_settings := ensureMappingV ((lookupD profiles "global").getD Val.none)
  let overrides := ensureMappingV ((lookupD profiles "per_node_overrides").getD Val.none)
  let quiet_hours_active :=
    quietHoursActive ((lookupD global_settings "quiet_hours").getD Val.none) now
  nodes.map fun node_id =>
    (node_id,
      buildNodePayload global_settings
        (ensureMappingV ((lookupD overrides node_id).getD Val.none))
        quiet_hours_active)

/-- Embedding of `hub/narrative_state.py`: the `NarrativeState` dataclass.  The trigger
set is kept as the list of distinct registered ids (insertion only happens
after a membership test, so it stays duplicate-free). -/
structure NarrativeState where
  required_fragments : Int
  triggered_whispers : List String
  unlocked : Bool
deriving Repr, DecidableEq

/-- A freshly constructed `NarrativeState(required_fragments=n)`. -/
def initialState (required_fragments : Int) : NarrativeState :=
  { required_fragments := required_fragments, triggered_whispers := [], unlocked := false }

/-- Embedding of `NarrativeState.register_trigger(node_id)`: duplicate ids return
`False` and change nothing; a new id is added and, while still locked,
reaching the required count sets `unlocked`. -/
def registerTrigger (s : NarrativeState) (node_id : String) : Bool × NarrativeState :=
  if node_id ∈ s.triggered_whispers then (false, s)
  else
    let tw := node_id :: s.triggered_whispers
    let unlocked :=
      if !s.unlocked && decide (s.required_fragments ≤ (tw.length : Int)) then true
      else s.unlocked
    (true, { s with triggered_whispers := tw, unlocked := unlocked })

/-- Embedding of `NarrativeState.reset()`. -/
def resetState (s : NarrativeState) : NarrativeState :=
  { s with triggered_whispers := [], unlocked := false }

/-- Embedding of `NarrativeState.triggered_list()`: the ids in sorted order. -/
def triggeredList (s : NarrativeState) : List String :=
  s.triggered_whispers.mergeSort (· ≤ ·)

/-- The states an `NarrativeState` instance can actually be in: freshly
constructed, or the result of `register_trigger` / `reset` on such a
state. -/
inductive ReachableNarrative : NarrativeState → Prop where
  | init (required : Int) : ReachableNarrative (initialState required)
  | register (s : NarrativeState) (id : String) :
      ReachableNarrative s → ReachableNarrative (registerTrigger s id).2
  | reset (s : NarrativeState) :
      ReachableNarrative s → ReachableNarrative (resetState s)

/-- The WAV data `_make_paced_copy` reads and writes: `getparams()` fields
plus the raw sample frames returned by `readframes(nframes)` (as bytes). -/
structure WavParams where
  nchannels : Nat
  sampwidth : Nat
  framerate : Nat
  frames : List Nat
deriving Repr, DecidableEq

/-- The new frame rate `max(500, int(params.framerate * pace))` written
by `_make_paced_copy`. -/
def pacedFramerate (framerate : Nat) (pace : ℚ) : Int :=
  max 500 (pyIntOfRat (framerate * pace))

/-- The WAV asset `_make_paced_copy` writes: scaled frame rate, same
channel count and sample width, identical raw frames. -/
def pacedCopyParams (source : WavParams) (pace : ℚ) : WavParams :=
  { nchannels := source.nchannels
    sampwidth := source.sampwidth
    framerate := (pacedFramerate source.framerate pace).toNat
    frames := source.frames }

/-- The final path component (the characters after the last `/`). -/
def lastPathComponent : List Char → List Char :=
  let rec go (acc : List Char) : List Char → List Char
    | [] => acc.reverse
    | c :: rest => if c = '/' then go [] rest else go (c :: acc) rest
  go []

/-- Index of the last `.` in a character list, if any. -/
def lastDotIndex : List Char → Option Nat
  | [] => Option.none
  | c :: rest =>
      match lastDotIndex rest with
      | some i => some (i + 1)
      | Option.none => if c = '.' then some 0 else Option.none

/-- Pathlib `Path.suffix`: the final component's extension including
the dot, empty when the last dot is leading or trailing. -/
def pathSuffix (p : String) : String :=
  let cs := lastPathComponent p.data
  match lastDotIndex cs with
  | some i => if 0 < i ∧ i < cs.length - 1 then String.mk (cs.drop i) else ""
  | Option.none => ""

/-- The mutable fields of an `AudioPlayer` that the pacing lifecycle
touches (`_loaded_path`, `_temp_audio`); the file system is modelled
alongside as the list of existing file paths. -/
structure AudioPlayerState where
  loaded_path : Option String
  temp_audio : Option String
deriving Repr, DecidableEq

/-- Embedding of `AudioPlayer._cleanup_temp_audio()`: with no temp asset it is a
no-op; otherwise the handle is nulled out and the file unlinked
(`missing_ok=True`: unlinking an already-gone file changes nothing). -/
def cleanupTempAudio (s : AudioPlayerState) (files : List String) :
    AudioPlayerState × List String :=
  match s.temp_audio with
  | Option.none => (s, files)
  | some target => ({ s with temp_audio := Option.none }, files.erase target)

/-- Embedding of `AudioPlayer._make_paced_copy(pace)` (success and unsupported paths):
non-`.wav` sources are unsupported; otherwise the previous temp asset is
cleaned up, the source is read (`readWav` standing for `wave.open(...,
"rb")`; a read failure is the caught `wave.Error`/`OSError` path, which
leaves no half-written file), and a fresh temp file named `fresh` is written
with the paced parameters.  Returns the new state, file list, and the
path/content written. -/
def makePacedCopy (s : AudioPlayerState) (files : List String)
    (readWav : String → Option WavParams) (pace : ℚ) (fresh : String) :
    AudioPlayerState × List String × Option (String × WavParams) :=
  match s.loaded_path with
  | Option.none => (s, files, Option.none)
  | some loaded =>
      if pyLower (pathSuffix loaded) ≠ ".wav" then (s, files, Option.none)
      else
        let cleaned := cleanupTempAudio s files
        match readWav loaded with
        | Option.none => (cleaned.1, cleaned.2, Option.none)
        | some params =>
            ({ cleaned.1 with temp_audio := some fresh },
              fresh :: cleaned.2,
              some (fresh, pacedCopyParams params pace))

/-! ## Helper lemmas about the dictionary embedding -/

theorem lookupD_append (d1 d2 : List (String × Val)) (k : String) :
    lookupD (d1 ++ d2) k = ((lookupD d1 k).orElse fun _ => lookupD d2 k) := by
  induction d1 with
  | nil => simp [lookupD]
  | cons kv rest ih =>
      obtain ⟨k1, v1⟩ := kv
      by_cases h : k1 = k <;> simp [lookupD, h, ih]

theorem lookupD_eq_none_of_not_mem (d : List (String × Val)) (k : String)
    (h : k ∉ d.map Prod.fst) : lookupD d k = Option.none := by
  induction d with
  | nil => rfl
  | cons kv rest ih =>
      obtain ⟨k1, v1⟩ := kv
      simp only [List.map_cons, List.mem_cons] at h
      push_neg at h
      simp [lookupD, Ne.symm h.1, ih h.2]

theorem lookupD_setD_self (d : List (String × Val)) (k : String) (v : Val) :
    lookupD (setD d k v) k = some v := by
  induction d with
  | nil => simp [setD, lookupD]
  | cons kv rest ih =>
      obtain ⟨k1, v1⟩ := kv
      by_cases h : k1 = k <;> simp [setD, lookupD, h, ih]

theorem lookupD_popD_self (d : List (String × Val)) (k : String)
    (h : (d.map Prod.fst).Nodup) : lookupD (popD d k) k = Option.none := by
  induction d with
  | nil => rfl
  | cons kv rest ih =>
      obtain ⟨k1, v1⟩ := kv
      simp only [List.map_cons, List.nodup_cons] at h
      by_cases hk : k1 = k
      · subst hk
        simp [popD, lookupD_eq_none_of_not_mem rest k1 h.1]
      · simp [popD, lookupD, hk, ih h.2]

theorem lookupD_setdefaultD_self (d : List (String × Val)) (k : String) (v : Val) :
    lookupD (setdefaultD d k v) k = some ((lookupD d k).getD v) := by
  unfold setdefaultD
  rcases h : lookupD d k with _ | w
  · simp [h, lookupD_append, lookupD]
  · simp [h, Option.isSome]

theorem lookupD_setdefaultD_of_isSome (d : List (String × Val)) (k2 k : String)
    (v : Val) (h : (lookupD d k).isSome) :
    lookupD (setdefaultD d k2 v) k = lookupD d k := by
  unfold setdefaultD
  split
  · rfl
  · rcases hl : lookupD d k with _ | w
    · rw [hl] at h; simp at h
    · simp [lookupD_append, hl]

/-! ## Helper lemmas for the narrative tracker -/

theorem registerTrigger_required (s : NarrativeState) (id : String) :
    (registerTrigger s id).2.required_fragments = s.required_fragments := by
  unfold registerTrigger
  split <;> rfl

/-- Reachable states satisfy: the unlock flag is set exactly when at
least one trigger is recorded and the distinct-trigger count has met the
threshold. -/
theorem narrative_invariant {s : NarrativeState} (h : ReachableNarrative s) :
    s.unlocked = (decide (s.required_fragments ≤ (s.triggered_whispers.length : Int))
      && decide (1 ≤ s.triggered_whispers.length)) := by
  induction h with
  | init required => simp [initialState]
  | register s id hs ih =>
      by_cases hmem : id ∈ s.triggered_whispers
      · simpa [registerTrigger, hmem] using ih
      · rcases hu : s.unlocked with _ | _
        · rw [hu] at ih
          simp only [registerTrigger, hmem, if_neg, hu, Bool.not_false, Bool.true_and,
            List.length_cons]
          symm at ih
          rw [Bool.and_eq_false_iff] at ih
          simp only [if_false]
          rcases ih with ih | ih <;>
          · simp only [decide_eq_false_iff_not, not_le] at ih
            by_cases hreq : s.required_fragments ≤ ((s.triggered_whispers.length + 1 : Nat) : Int)
            · simp [hreq]
            · simp [hreq]
        · rw [hu] at ih
          symm at ih
          rw [Bool.and_eq_true, decide_eq_true_eq, decide_eq_true_eq] at ih
          simp only [registerTrigger, hmem, if_neg, hu, Bool.not_true, Bool.false_and,
            List.length_cons, if_false]
          have h1 : s.required_fragments ≤ ((s.triggered_whispers.length + 1 : Nat) : Int) := by
            have := ih.1; push_cast; push_cast at this; omega
          have h2 : 1 ≤ s.triggered_whispers.length + 1 := by omega
          simp [h1, h2]
          omega
  | reset s hs ih => simp [resetState]

/-! ## C6 — narrative trigger registration -/

/-- C6: `register_trigger` of an already-seen id returns `False` and
changes neither the trigger set nor the unlock flag; a new id is added
and the call returns `True`; the unlock flag never goes back to false
under registration; for a reachable state with a positive threshold, a
registration leaves the state unlocked exactly when the distinct-trigger
count has reached `required_fragments`; `reset` restores the locked,
empty initial state. -/
theorem c6_register_trigger_spec (s : NarrativeState) (id : String) :
    (id ∈ s.triggered_whispers → registerTrigger s id = (false, s))
    ∧ (id ∉ s.triggered_whispers →
        (registerTrigger s id).1 = true ∧
        (registerTrigger s id).2.triggered_whispers = id :: s.triggered_whispers)
    ∧ (s.unlocked = true → (registerTrigger s id).2.unlocked = true)
    ∧ (ReachableNarrative s → 1 ≤ s.required_fragments →
        ((registerTrigger s id).2.unlocked = true ↔
          s.required_fragments ≤ ((registerTrigger s id).2.triggered_whispers.length : Int)))
    ∧ resetState s = initialState s.required_fragments := by
  refine ⟨fun hmem => by simp [registerTrigger, hmem],
    fun hmem => by simp [registerTrigger, hmem], ?_, ?_, rfl⟩
  · intro hu
    by_cases hmem : id ∈ s.triggered_whispers <;> simp [registerTrigger, hmem, hu]
  · intro hreach hreq
    have hinv := narrative_invariant (ReachableNarrative.register s id hreach)
    rw [hinv, registerTrigger_required s id]
    have hlen : 1 ≤ (registerTrigger s id).2.triggered_whispers.length := by
      by_cases hmem : id ∈ s.triggered_whispers
      · simp only [registerTrigger, hmem, if_pos]
        exact List.length_pos_of_mem hmem
      · simp [registerTrigger, hmem]
    simp [hlen]

/-- Witness for C6 at a concrete reachable state: `"a"` is already
recorded so re-registering it is a no-op returning `False`, and
registering the fresh id `"b"` reaches the threshold 2 and unlocks. -/
theorem c6_register_trigger_spec_witness :
    ("a" ∈ (⟨2, ["a"], false⟩ : NarrativeState).triggered_whispers
      ∧ registerTrigger ⟨2, ["a"], false⟩ "a" = (false, ⟨2, ["a"], false⟩))
    ∧ (1 ≤ (⟨2, ["a"], false⟩ : NarrativeState).required_fragments
      ∧ (registerTrigger ⟨2, ["a"], false⟩ "b").2.unlocked = true) := by
  refine ⟨⟨by decide, (c6_register_trigger_spec ⟨2, ["a"], false⟩ "a").1 (by decide)⟩,
    by decide, ?_⟩
  have hreach : ReachableNarrative (⟨2, ["a"], false⟩ : NarrativeState) :=
    ReachableNarrative.register (initialState 2) "a" (ReachableNarrative.init 2)
  exact ((c6_register_trigger_spec ⟨2, ["a"], false⟩ "b").2.2.2.1 hreach
    (by decide)).mpr (by decide)

/-! ## C9 — paced copy production and temp-asset cleanup -/

/-- C9: for a loaded `.wav` source read as `source`, `_make_paced_copy`
writes a temp asset whose frame rate is `max(500, int(framerate * pace))`
with the source's channel count, sample width and raw frames unchanged
(`44100 Hz` at pace `0.9` giving `39690`); a subsequent explicit cleanup
removes the temp file and nulls the handle, and a second cleanup call
changes nothing. -/
theorem c9_make_paced_copy_spec (s : AudioPlayerState) (files : List String)
    (loaded fresh : String) (source : WavParams) (pace : ℚ)
    (hload : s.loaded_path = some loaded)
    (hsuffix : pyLower (pathSuffix loaded) = ".wav")
    (hfresh : fresh ∉ files) :
    (makePacedCopy s files (fun p => if p = loaded then some source else Option.none)
        pace fresh).2.2 = some (fresh, pacedCopyParams source pace)
    ∧ (pacedCopyParams source pace).framerate
        = (max 500 (pyIntOfRat ((source.framerate : ℚ) * pace))).toNat
    ∧ (pacedCopyParams source pace).nchannels = source.nchannels
    ∧ (pacedCopyParams source pace).sampwidth = source.sampwidth
    ∧ (pacedCopyParams source pace).frames = source.frames
    ∧ pacedFramerate 44100 (0.9 : ℚ) = 39690
    ∧ (let r := makePacedCopy s files
          (fun p => if p = loaded then some source else Option.none) pace fresh
       let c1 := cleanupTempAudio r.1 r.2.1
       c1.1.temp_audio = Option.none ∧ fresh ∉ c1.2 ∧ cleanupTempAudio c1.1 c1.2 = c1) := by
  have hrate : pacedFramerate 44100 (0.9 : ℚ) = 39690 := by
    have h1 : ((44100 : Nat) : ℚ) * (0.9 : ℚ) = (39690 : ℚ) := by norm_num
    rw [pacedFramerate, h1, pyIntOfRat]
    norm_num
  have hr : makePacedCopy s files
      (fun p => if p = loaded then some source else Option.none) pace fresh
      = ({ (cleanupTempAudio s files).1 with temp_audio := some fresh },
          fresh :: (cleanupTempAudio s files).2,
          some (fresh, pacedCopyParams source pace)) := by
    rw [makePacedCopy, hload]
    simp [hsuffix]
  refine ⟨by rw [hr], rfl, rfl, rfl, rfl, hrate, ?_⟩
  have hfresh2 : fresh ∉ (cleanupTempAudio s files).2 := by
    rcases ht : s.temp_audio with _ | t
    · simpa [cleanupTempAudio, ht] using hfresh
    · simp only [cleanupTempAudio, ht]
      exact fun hmem => hfresh (List.mem_of_mem_erase hmem)
  rw [hr]
  simp only [cleanupTempAudio, List.erase_cons_head]
  exact ⟨trivial, hfresh2, trivial⟩

/-- Witness for C9: a mono 16-bit 44100 Hz clip paced at 0.9 through a
player with no prior temp asset. -/
theorem c9_make_paced_copy_spec_witness :
    ((⟨some "clip.wav", Option.none⟩ : AudioPlayerState).loaded_path = some "clip.wav"
      ∧ pyLower (pathSuffix "clip.wav") = ".wav"
      ∧ ("echotrace_paced_1.wav" ∉ ([] : List String)))
    ∧ (makePacedCopy ⟨some "clip.wav", Option.none⟩ []
        (fun p => if p = "clip.wav" then some ⟨1, 2, 44100, [0, 0]⟩ else Option.none)
        (0.9 : ℚ) "echotrace_paced_1.wav").2.2
      = some ("echotrace_paced_1.wav", ⟨1, 2, 39690, [0, 0]⟩) := by
  refine ⟨⟨rfl, by decide, by decide⟩, ?_⟩
  have happ := c9_make_paced_copy_spec ⟨some "clip.wav", Option.none⟩ []
    "clip.wav" "echotrace_paced_1.wav" ⟨1, 2, 44100, [0, 0]⟩ (0.9 : ℚ)
    rfl (by decide) (by decide)
  rw [happ.1]
  have hrate := happ.2.2.2.2.2.1
  simp [pacedCopyParams, hrate]

/-! ## C3 — quiet-hours membership logic -/

theorem quietHoursActive_eq_any (value : Val) (now : Nat) :
    quietHoursActive value now = ((normaliseQuietHours value).any fun w =>
      if w.1 ≤ w.2 then decide (w.1 ≤ now ∧ now < w.2)
      else decide (now ≥ w.1 ∨ now < w.2)) := by
  cases hl : normaliseQuietHours value <;> simp [quietHoursActive, hl]

theorem windowCond_iff (w : Nat × Nat) (now : Nat) :
    ((if w.1 ≤ w.2 then decide (w.1 ≤ now ∧ now < w.2)
      else decide (now ≥ w.1 ∨ now < w.2)) = true)
    ↔ ((w.1 ≤ w.2 ∧ w.1 ≤ now ∧ now < w.2) ∨
        (w.2 < w.1 ∧ (now ≥ w.1 ∨ now < w.2))) := by
  by_cases h : w.1 ≤ w.2 <;> simp [h] <;> omega

/-- C3: `_quiet_hours_active` is false when no window parses, and
otherwise true exactly when some parsed window `(start, end)` contains
`now`: for `start ≤ end` when `start ≤ now < end`, and for a window
crossing midnight (`start > end`) when `now ≥ start` or `now < end`. -/
theorem c3_is_active_iff_window_match (value : Val) (now : Nat) :
    (normaliseQuietHours value = [] → quietHoursActive value now = false)
    ∧ (quietHoursActive value now = true ↔
        ∃ w ∈ normaliseQuietHours value,
          (w.1 ≤ w.2 ∧ w.1 ≤ now ∧ now < w.2) ∨
          (w.2 < w.1 ∧ (now ≥ w.1 ∨ now < w.2))) := by
  constructor
  · intro h
    rw [quietHoursActive_eq_any, h]
    rfl
  · rw [quietHoursActive_eq_any, List.any_eq_true]
    constructor
    · rintro ⟨w, hmem, hc⟩
      exact ⟨w, hmem, (windowCond_iff w now).mp hc⟩
    · rintro ⟨w, hmem, hc⟩
      exact ⟨w, hmem, (windowCond_iff w now).mpr hc⟩

/-- Witness for C3: the window `"22:00-06:00"` crosses midnight and is
active at 05:00 (minute 300). -/
theorem c3_is_active_iff_window_match_witness :
    quietHoursActive (Val.list [Val.str "22:00-06:00"]) 300 = true :=
  (c3_is_active_iff_window_match (Val.list [Val.str "22:00-06:00"]) 300).2.mpr
    ⟨(1320, 360), by decide, by decide⟩

/-! ## C10 — total payload derivation -/

/-- C10: `derive_runtime_payloads` always returns one payload per
requested node id (exactly the requested key set, in order); a
non-mapping section passes through `_ensure_mapping` as the empty
mapping; and an ill-typed (coercion-rejected) or unparsable
`quiet_hours` value yields an inactive quiet-hours verdict. -/
theorem c10_derive_payloads_total (profiles : List (String × Val))
    (nodes : List String) (now : Nat) :
    ((deriveRuntimePayloads profiles nodes now).map Prod.fst = nodes)
    ∧ (∀ v : Val, (∀ d, v ≠ Val.dict d) → ensureMappingV v = [])
    ∧ (∀ (v : Val) (t : Nat) (e : QhError),
        coerceQuietHourEntries v = .error e → quietHoursActive v t = false)
    ∧ (∀ (v : Val) (t : Nat),
        normaliseQuietHours v = [] → quietHoursActive v t = false) := by
  have hempty : ∀ (v : Val) (t : Nat),
      normaliseQuietHours v = [] → quietHoursActive v t = false := by
    intro v t h
    rw [quietHoursActive_eq_any, h]
    rfl
  refine ⟨?_, ?_, ?_, hempty⟩
  · simp [deriveRuntimePayloads, Function.comp_def]
  · intro v h
    cases v <;> first | rfl | exact absurd rfl (h _)
  · intro v t e h
    apply hempty
    unfold normaliseQuietHours
    rw [h]

/-- Witness for C10: a document whose `global` section is a bare string
still yields exactly the requested key set, and an integer-typed
`quiet_hours` value is treated as inactive. -/
theorem c10_derive_payloads_total_witness :
    ((deriveRuntimePayloads [("global", Val.str "broken")] ["object1"] 0).map Prod.fst
      = ["object1"])
    ∧ quietHoursActive (Val.int 5) 0 = false :=
  ⟨(c10_derive_payloads_total [("global", Val.str "broken")] ["object1"] 0).1,
    (c10_derive_payloads_total [] [] 0).2.2.1 (Val.int 5) 0
      (.typeErr "quiet_hours must be provided as a string or list.") rfl⟩

/-! ## C7 — validation error reporting -/

/-- C7: `ensure_quiet_hours_valid` reports every offending entry at once
(each invalid entry appears in the reported list, which is exactly the
filter of the coerced entries); loading a document whose global
`quiet_hours` contains `"invalid"` fails with that entry reported; and a
keyed mapping as the `quiet_hours` value is rejected as a type error. -/
theorem c7_validation_reports_all_entries (value : Val) (entries : List String) :
    (coerceQuietHourEntries value = .ok entries →
      ∀ entry ∈ entries, invalidWindowEntry entry = true →
        ensureQuietHoursValid value
          = .error (.invalidEntries (entries.filter invalidWindowEntry))
        ∧ entry ∈ entries.filter invalidWindowEntry)
    ∧ (loadProfilesData
        (Val.dict [("global", Val.dict [("quiet_hours", Val.list [Val.str "invalid"])])])
        = .error (.quietHours (.invalidEntries ["invalid"]))
        ∧ "invalid" ∈ ["invalid"])
    ∧ (∀ d : List (String × Val), ensureQuietHoursValid (Val.dict d)
        = .error (.typeErr "quiet_hours must be a list of HH:MM-HH:MM strings.")) := by
  refine ⟨?_, ⟨by rfl, by simp⟩, fun d => rfl⟩
  intro h entry hmem hbad
  have hmemf : entry ∈ entries.filter invalidWindowEntry :=
    List.mem_filter.mpr ⟨hmem, hbad⟩
  have h1 : entries.isEmpty = false := by
    cases entries with
    | nil => cases hmem
    | cons a l => rfl
  have h2 : (entries.filter invalidWindowEntry).isEmpty = false := by
    cases hf : entries.filter invalidWindowEntry with
    | nil => rw [hf] at hmemf; cases hmemf
    | cons a l => rfl
  have hne : entries ≠ [] := List.ne_nil_of_mem hmem
  have hex : ¬ ∀ a ∈ entries, invalidWindowEntry a = false := fun hall => by
    rw [hall entry hmem] at hbad
    cases hbad
  refine ⟨?_, hmemf⟩
  simp [ensureQuietHoursValid, h, hne, hex]

/-- Witness for C7: a list with one bad and one good entry is rejected
with exactly the bad entry reported. -/
theorem c7_validation_reports_all_entries_witness :
    ensureQuietHoursValid (Val.list [Val.str "invalid", Val.str "08:00-09:00"])
      = .error (.invalidEntries ["invalid"]) := by
  have h := (c7_validation_reports_all_entries
    (Val.list [Val.str "invalid", Val.str "08:00-09:00"])
    ["invalid", "08:00-09:00"]).1 rfl "invalid" (by decide) (by decide)
  rw [h.1]
  rfl

/-! ## C8 — per-node override round-trip -/

theorem setPerNodeOverride_eq (profiles per : List (String × Val))
    (node_id : String) (overrides : List (String × Val))
    (hl : lookupD (setdefaultD profiles "per_node_overrides" (Val.dict []))
      "per_node_overrides" = some (Val.dict per)) :
    setPerNodeOverride profiles node_id overrides =
      .ok (setD (setdefaultD profiles "per_node_overrides" (Val.dict []))
        "per_node_overrides" (Val.dict (
          if (overrides.filter fun kv => !isEmptyOverrideVal kv.2).isEmpty
          then popD per node_id
          else setD per node_id
            (Val.dict (overrides.filter fun kv => !isEmptyOverrideVal kv.2))))) := by
  simp only [setPerNodeOverride, hl, Option.getD_some]

/-- C8: `set_per_node_override` followed by reading that node's stored
entry reproduces exactly the override's non-empty fields (the entry is
wholly replaced, whatever was there before), and an all-empty override
removes the entry outright.  The `Nodup` hypothesis records that a
Python dict cannot bind one key twice. -/
theorem c8_set_override_roundtrip (profiles : List (String × Val))
    (node_id : String) (overrides per : List (String × Val))
    (hper : lookupD profiles "per_node_overrides" = Option.none ∨
      lookupD profiles "per_node_overrides" = some (Val.dict per))
    (hnodup : (per.map Prod.fst).Nodup) :
    ∃ updated, setPerNodeOverride profiles node_id overrides = .ok updated
      ∧ storedOverride updated node_id =
          (if (overrides.filter fun kv => !isEmptyOverrideVal kv.2).isEmpty
           then Option.none
           else some (Val.dict (overrides.filter fun kv => !isEmptyOverrideVal kv.2))) := by
  have hmain : ∀ per0 : List (String × Val),
      (per0.map Prod.fst).Nodup →
      lookupD (setdefaultD profiles "per_node_overrides" (Val.dict []))
        "per_node_overrides" = some (Val.dict per0) →
      ∃ updated, setPerNodeOverride profiles node_id overrides = .ok updated
        ∧ storedOverride updated node_id =
            (if (overrides.filter fun kv => !isEmptyOverrideVal kv.2).isEmpty
             then Option.none
             else some (Val.dict (overrides.filter fun kv => !isEmptyOverrideVal kv.2))) := by
    intro per0 hnd hl
    refine ⟨_, setPerNodeOverride_eq profiles per0 node_id overrides hl, ?_⟩
    unfold storedOverride
    rw [lookupD_setD_self]
    by_cases he : (overrides.filter fun kv => !isEmptyOverrideVal kv.2).isEmpty
    · simp only [he, if_true]
      exact lookupD_popD_self per0 node_id hnd
    · simp only [he, if_false]
      exact lookupD_setD_self per0 node_id _
  rcases hper with hper | hper
  · refine hmain [] (by simp) ?_
    rw [lookupD_setdefaultD_self, hper]
    rfl
  · refine hmain per hnodup ?_
    rw [lookupD_setdefaultD_self, hper]
    rfl

/-- Witness for C8: overriding node `"n1"` (which had a previous entry)
with one real field, one empty-string field and one `None` field fully
replaces the entry with exactly the real field. -/
theorem c8_set_override_roundtrip_witness :
    setPerNodeOverride
        [("per_node_overrides", Val.dict [("n1", Val.dict [("captions", Val.bool true)])])]
        "n1" [("visual_pulse", Val.bool true), ("note", Val.str ""), ("x", Val.none)]
      = .ok [("per_node_overrides",
          Val.dict [("n1", Val.dict [("visual_pulse", Val.bool true)])])]
    ∧ storedOverride
        [("per_node_overrides",
          Val.dict [("n1", Val.dict [("visual_pulse", Val.bool true)])])] "n1"
      = some (Val.dict [("visual_pulse", Val.bool true)]) := by
  obtain ⟨updated, hok, hread⟩ := c8_set_override_roundtrip
    [("per_node_overrides", Val.dict [("n1", Val.dict [("captions", Val.bool true)])])]
    "n1" [("visual_pulse", Val.bool true), ("note", Val.str ""), ("x", Val.none)]
    [("n1", Val.dict [("captions", Val.bool true)])]
    (Or.inr rfl) (by simp)
  have hu : updated
      = [("per_node_overrides",
          Val.dict [("n1", Val.dict [("visual_pulse", Val.bool true)])])] :=
    Except.ok.inj (hok.symm.trans rfl)
  refine ⟨by rw [hok, hu], ?_⟩
  rw [hu] at hread
  rw [hread]
  rfl

/-! ## C4 — volume resolution policy -/

/-- C4: an explicitly supplied override volume is clamped to `[0, 1]`
and used as is — the conclusion does not depend on the quiet-hours
verdict, so quiet hours never further reduces it; with no explicit
value the volume is the 0.7 base, capped to 0.55 under
`sensory_friendly` and to 0.45 during quiet hours. -/
theorem c4_volume_policy (g o : List (String × Val)) (quiet : Bool) :
    (∀ v : Val, lookupD o "volume" = some v → v ≠ Val.none →
      (buildNodePayload g o quiet).volume = clampFloat v 0.0 1.0)
    ∧ ((lookupD o "volume" = Option.none ∨ lookupD o "volume" = some Val.none) →
      (buildNodePayload g o quiet).volume =
        (if quiet then (0.45 : ℚ)
         else if pyBool ((lookupD g "sensory_friendly").getD Val.none) then 0.55
         else 0.7)) := by
  constructor
  · intro v h hv
    cases v with
    | none => exact absurd rfl hv
    | bool b => simp [buildNodePayload, h]
    | int n => simp [buildNodePayload, h]
    | float q => simp [buildNodePayload, h]
    | str s => simp [buildNodePayload, h]
    | list xs => simp [buildNodePayload, h]
    | dict d => simp [buildNodePayload, h]
  · intro h
    have hval : (lookupD o "volume").getD Val.none = Val.none := by
      rcases h with h | h <;> rw [h] <;> rfl
    simp only [buildNodePayload, hval]
    cases hsen : pyBool ((lookupD g "sensory_friendly").getD Val.none) <;>
      cases quiet <;>
        norm_num [clampFloat, pyToFloat, min_def, max_def]

/-- Witness for C4, matching the spec scenario (no override, quiet hours
active, `sensory_friendly` false): the derived volume is exactly 0.45. -/
theorem c4_volume_policy_witness :
    (lookupD ([] : List (String × Val)) "volume" = Option.none)
    ∧ (buildNodePayload [("sensory_friendly", Val.bool false)] [] true).volume = 0.45 := by
  refine ⟨rfl, ?_⟩
  have h := (c4_volume_policy [("sensory_friendly", Val.bool false)] [] true).2
    (Or.inl rfl)
  rw [h]
  simp

/-! ## C5 — LED field override precedence under quiet hours -/

/-- C5: `visual_pulse` and `proximity_glow` follow the override value
(its truthiness; for a boolean override, the value itself) whenever the
key is explicitly present, whatever the quiet-hours verdict; when
absent, `visual_pulse` defaults to false and `proximity_glow` to true
outside quiet hours, and both to false during active quiet hours. -/
theorem c5_led_override_precedence (g o : List (String × Val)) (quiet : Bool) :
    (∀ v : Val, lookupD o "visual_pulse" = some v →
      (buildNodePayload g o quiet).visual_pulse = pyBool v)
    ∧ (∀ b : Bool, lookupD o "visual_pulse" = some (Val.bool b) →
      (buildNodePayload g o quiet).visual_pulse = b)
    ∧ (∀ v : Val, lookupD o "proximity_glow" = some v →
      (buildNodePayload g o quiet).proximity_glow = pyBool v)
    ∧ (∀ b : Bool, lookupD o "proximity_glow" = some (Val.bool b) →
      (buildNodePayload g o quiet).proximity_glow = b)
    ∧ (lookupD o "visual_pulse" = Option.none →
      (buildNodePayload g o quiet).visual_pulse = false)
    ∧ (lookupD o "proximity_glow" = Option.none →
      (buildNodePayload g o quiet).proximity_glow = (if quiet then false else true)) := by
  have hvp : ∀ v : Val, lookupD o "visual_pulse" = some v →
      (buildNodePayload g o quiet).visual_pulse = pyBool v := by
    intro v h
    simp [buildNodePayload, h]
  have hpg : ∀ v : Val, lookupD o "proximity_glow" = some v →
      (buildNodePayload g o quiet).proximity_glow = pyBool v := by
    intro v h
    simp [buildNodePayload, h]
  refine ⟨hvp, fun b hb => by rw [hvp (Val.bool b) hb]; rfl,
    hpg, fun b hb => by rw [hpg (Val.bool b) hb]; rfl, ?_, ?_⟩
  · intro h
    cases quiet <;> simp [buildNodePayload, h, pyBool]
  · intro h
    cases quiet <;> simp [buildNodePayload, h, pyBool]

/-- Witness for C5, matching the spec scenario: explicit
`visual_pulse`/`proximity_glow` overrides survive active quiet hours. -/
theorem c5_led_override_precedence_witness :
    (lookupD [("visual_pulse", Val.bool true), ("proximity_glow", Val.bool true)]
        "visual_pulse" = some (Val.bool true))
    ∧ (buildNodePayload [("quiet_hours", Val.list [Val.str "08:00-09:00"])]
        [("visual_pulse", Val.bool true), ("proximity_glow", Val.bool true)]
        true).visual_pulse = true
    ∧ (buildNodePayload [("quiet_hours", Val.list [Val.str "08:00-09:00"])]
        [("visual_pulse", Val.bool true), ("proximity_glow", Val.bool true)]
        true).proximity_glow = true := by
  refine ⟨rfl, ?_, ?_⟩
  · exact (c5_led_override_precedence
      [("quiet_hours", Val.list [Val.str "08:00-09:00"])]
      [("visual_pulse", Val.bool true), ("proximity_glow", Val.bool true)] true).2.1
      true rfl
  · exact (c5_led_override_precedence
      [("quiet_hours", Val.list [Val.str "08:00-09:00"])]
      [("visual_pulse", Val.bool true), ("proximity_glow", Val.bool true)] true).2.2.2.1
      true rfl

/-! ## C2 — coercion-failure fallback -/

/-- Counterexample to C2 as stated: a non-numeric global
`mobility_buffer_ms` makes the resolved value fall back to the clamp
minimum 0, not to the stated default 800, so the payload differs from
the absent-field payload. -/
theorem c2_counterexample_mobility_fallback :
    (buildNodePayload [("mobility_buffer_ms", Val.str "abc")] [] false).mobility_buffer_ms = 0
    ∧ (buildNodePayload [] [] false).mobility_buffer_ms = 800
    ∧ buildNodePayload [("mobility_buffer_ms", Val.str "abc")] [] false
        ≠ buildNodePayload [] [] false := by
  refine ⟨by decide, by decide, fun hcontra => ?_⟩
  have h2 := congrArg RuntimePayload.mobility_buffer_ms hcontra
  rw [(by decide :
    (buildNodePayload [("mobility_buffer_ms", Val.str "abc")] [] false).mobility_buffer_ms
      = 0)] at h2
  rw [(by decide : (buildNodePayload [] [] false).mobility_buffer_ms = 800)] at h2
  exact absurd h2 (by decide)

/-- C2 amended: a coercion-failing value never raises, but falls back to
the clamp **minimum** of the field, not the field's default: 0 for
`mobility_buffer_ms` (not the 800 default), 0 for `repeat` (which
coincides with its default), 0.85 for `pace` (not the 0.9/1.0 base) and
0.0 for `volume` (not the computed base volume). -/
theorem c2_amended_fallback_is_minimum (g o : List (String × Val)) (quiet : Bool)
    (v : Val) :
    (pyToInt v = Option.none → clampInt v 0 60000 = 0 ∧ clampInt v 0 2 = 0)
    ∧ (pyToFloat v = Option.none →
        clampFloat v 0.85 1.15 = 0.85 ∧ clampFloat v 0.0 1.0 = 0.0)
    ∧ (lookupD o "pace" = some v → pyToFloat v = Option.none →
        (buildNodePayload g o quiet).pace = 0.85)
    ∧ (lookupD o "mobility_buffer_ms" = some v → pyToInt v = Option.none →
        (buildNodePayload g o quiet).mobility_buffer_ms = 0)
    ∧ (lookupD o "repeat" = some v → pyToInt v = Option.none →
        (buildNodePayload g o quiet).repeatCount = 0)
    ∧ (lookupD o "volume" = some v → v ≠ Val.none → pyToFloat v = Option.none →
        (buildNodePayload g o quiet).volume = 0.0) := by
  have hci : pyToInt v = Option.none → ∀ hi : Int, 0 ≤ hi → clampInt v 0 hi = 0 := by
    intro h hi hhi
    simp [clampInt, h, min_def, max_def, hhi]
  have hcf : pyToFloat v = Option.none →
      ∀ lo hi : ℚ, lo ≤ hi → clampFloat v lo hi = lo := by
    intro h lo hi hhi
    simp [clampFloat, h, min_def, max_def, hhi]
  refine ⟨fun h => ⟨hci h 60000 (by norm_num), hci h 2 (by norm_num)⟩,
    fun h => ⟨hcf h 0.85 1.15 (by norm_num), hcf h 0.0 1.0 (by norm_num)⟩,
    ?_, ?_, ?_, ?_⟩
  · intro h hf
    simp only [buildNodePayload, h, Option.getD_some]
    exact hcf hf 0.85 1.15 (by norm_num)
  · intro h hf
    simp only [buildNodePayload, h, Option.getD_some]
    rw [hci hf 60000 (by norm_num)]
    simp
  · intro h hf
    simp only [buildNodePayload, h, Option.getD_some]
    exact hci hf 2 (by norm_num)
  · intro h hv hf
    have hmatch : (buildNodePayload g o quiet).volume = clampFloat v 0.0 1.0 := by
      cases v with
      | none => exact absurd rfl hv
      | bool b => simp [buildNodePayload, h]
      | int n => simp [buildNodePayload, h]
      | float q => simp [buildNodePayload, h]
      | str s => simp [buildNodePayload, h]
      | list xs => simp [buildNodePayload, h]
      | dict d => simp [buildNodePayload, h]
    rw [hmatch]
    exact hcf hf 0.0 1.0 (by norm_num)

/-- Witness for C2's amended statement: the non-numeric pace override
`"fast"` resolves to the clamp minimum 0.85, not the 1.0 base. -/
theorem c2_amended_fallback_is_minimum_witness :
    (lookupD [("pace", Val.str "fast")] "pace" = some (Val.str "fast"))
    ∧ (pyToFloat (Val.str "fast") = Option.none)
    ∧ (buildNodePayload [] [("pace", Val.str "fast")] false).pace = 0.85 :=
  ⟨rfl, by decide,
    (c2_amended_fallback_is_minimum [] [("pace", Val.str "fast")] false
      (Val.str "fast")).2.2.1 rfl (by decide)⟩

/-! ## C1 — where quiet-hours validation actually happens -/

/-- Counterexample to C1 as stated: `apply_preset` merges a preset whose
`quiet_hours` value is invalid into the global settings without any
validation (and `set_per_node_override` likewise stores an invalid
override), so an update introducing an invalid value is *not* rejected. -/
theorem c1_counterexample_no_validation_on_update :
    applyPreset
        [("global", Val.dict []),
         ("presets", Val.dict [("calm", Val.dict [("quiet_hours", Val.str "garbage")])]),
         ("per_node_overrides", Val.dict [])] "calm"
      = .ok
        [("global", Val.dict [("quiet_hours", Val.str "garbage")]),
         ("presets", Val.dict [("calm", Val.dict [("quiet_hours", Val.str "garbage")])]),
         ("per_node_overrides", Val.dict [])]
    ∧ ensureQuietHoursValid (Val.str "garbage") = .error (.invalidEntries ["garbage"])
    ∧ setPerNodeOverride
        [("global", Val.dict []), ("presets", Val.dict []),
         ("per_node_overrides", Val.dict [])] "object1"
        [("quiet_hours", Val.str "garbage")]
      = .ok
        [("global", Val.dict []), ("presets", Val.dict []),
         ("per_node_overrides",
          Val.dict [("object1", Val.dict [("quiet_hours", Val.str "garbage")])])] :=
  ⟨rfl, rfl, rfl⟩

theorem any_key_eq_of_lookupD (d : List (String × Val)) (k : String) (v : Val)
    (h : lookupD d k = some v) : (d.any fun kv => kv.1 = k) = true := by
  induction d with
  | nil => cases h
  | cons kv rest ih =>
      obtain ⟨k1, v1⟩ := kv
      by_cases hk : k1 = k
      · simp [hk]
      · rw [lookupD, if_neg hk] at h
        simp [List.any_cons, ih h]

/-- C1 amended: quiet-hours validation happens only in `load_profiles`
and only for the `global` section's `quiet_hours` value — loading
succeeds exactly when that value validates — while `apply_preset` and
`set_per_node_override` succeed unconditionally on well-shaped documents
with no quiet-hours validation at all, so they can introduce invalid
values. -/
theorem c1_amended_validation_only_on_load (d0 g : List (String × Val)) :
    (lookupD d0 "global" = some (Val.dict g) →
      ((∃ out, loadProfilesData (Val.dict d0) = .ok out) ↔
        ensureQuietHoursValid ((lookupD g "quiet_hours").getD Val.none) = .ok ()))
    ∧ (∀ (profiles pd pv gd : List (String × Val)) (name : String),
        lookupD profiles "presets" = some (Val.dict pd) →
        lookupD pd name = some (Val.dict pv) →
        lookupD profiles "global" = some (Val.dict gd) →
        applyPreset profiles name
          = .ok (setD profiles "global" (Val.dict (updateD gd pv))))
    ∧ (∀ (profiles per overrides : List (String × Val)) (node_id : String),
        lookupD profiles "per_node_overrides" = some (Val.dict per) →
        ∃ updated, setPerNodeOverride profiles node_id overrides = .ok updated) := by
  refine ⟨?_, ?_, ?_⟩
  · intro hg
    have hne : d0 ≠ [] := by
      intro hnil
      rw [hnil] at hg
      cases hg
    have hpy : pyOr (Val.dict d0) (Val.dict []) = Val.dict d0 := by
      cases d0 with
      | nil => exact absurd rfl hne
      | cons a l => rfl
    have hsome : (lookupD d0 "global").isSome := by rw [hg]; rfl
    have hsome2 : (lookupD (setdefaultD d0 "global" (Val.dict [])) "global").isSome := by
      rw [lookupD_setdefaultD_of_isSome d0 "global" "global" (Val.dict []) hsome, hg]
      rfl
    have hl : lookupD (setdefaultD (setdefaultD (setdefaultD d0 "global" (Val.dict []))
        "presets" (Val.dict [])) "per_node_overrides" (Val.dict [])) "global"
        = some (Val.dict g) := by
      rw [lookupD_setdefaultD_of_isSome _ "per_node_overrides" "global" (Val.dict [])
        (by rw [lookupD_setdefaultD_of_isSome _ "presets" "global" (Val.dict []) hsome2]
            exact hsome2)]
      rw [lookupD_setdefaultD_of_isSome _ "presets" "global" (Val.dict []) hsome2]
      rw [lookupD_setdefaultD_of_isSome d0 "global" "global" (Val.dict []) hsome]
      exact hg
    simp only [loadProfilesData, hpy, hl, Option.getD_some]
    rcases hens : ensureQuietHoursValid ((lookupD g "quiet_hours").getD Val.none)
      with e | u
    · constructor
      · rintro ⟨out, hout⟩
        cases hout
      · intro habs
        cases habs
    · cases u
      simp
  · intro profiles pd pv gd name hpd hname hgd
    have hmem : pyContainsName (Val.dict pd) name = some true := by
      rw [pyContainsName, any_key_eq_of_lookupD pd name (Val.dict pv) hname]
    have hsd : setdefaultD profiles "global" (Val.dict []) = profiles := by
      unfold setdefaultD
      rw [hgd]
      rfl
    have hpv : pyOr ((lookupD pd name).getD Val.none) (Val.dict []) = Val.dict pv := by
      rw [hname, Option.getD_some]
      cases pv with
      | nil => rfl
      | cons a l => rfl
    simp only [applyPreset, hpd, Option.getD_some, hmem, hsd, hgd, hpv]
  · intro profiles per overrides node_id hper
    have hl : lookupD (setdefaultD profiles "per_node_overrides" (Val.dict []))
        "per_node_overrides" = some (Val.dict per) := by
      rw [lookupD_setdefaultD_self, hper]
      rfl
    exact ⟨_, setPerNodeOverride_eq profiles per node_id overrides hl⟩

/-- Witness for C1's amended statement: applying a preset whose only
field is an (invalid) `quiet_hours` value succeeds, the resulting global
section carrying the invalid value. -/
theorem c1_amended_validation_only_on_load_witness :
    applyPreset
        [("global", Val.dict []),
         ("presets", Val.dict [("calm", Val.dict [("quiet_hours", Val.bool true)])])]
        "calm"
      = .ok (setD
          [("global", Val.dict []),
           ("presets", Val.dict [("calm", Val.dict [("quiet_hours", Val.bool true)])])]
          "global"
          (Val.dict (updateD [] [("quiet_hours", Val.bool true)]))) :=
  (c1_amended_validation_only_on_load [] []).2.1
    [("global", Val.dict []),
     ("presets", Val.dict [("calm", Val.dict [("quiet_hours", Val.bool true)])])]
    [("calm", Val.dict [("quiet_hours", Val.bool true)])]
    [("quiet_hours", Val.bool true)] [] "calm" rfl rfl rfl

end EchoTrace
